import Mathlib

/-!
Verification development for the `git-issue` service abstraction and adapter
layer (`git_issue/__init__.py`, `service.py`, `github.py`, `gitlab.py`,
`gogs.py`, `jira.py`).

The Python code is shallowly embedded: every adapter method that the claims
touch is translated into an executable Lean function.  Python dictionaries
that carry heterogeneous JSON values are modelled by association lists over
`PyVal`; Python exceptions are modelled by `Except PyErr`; the blocking HTTP
transport is modelled by an oracle function `Request → Resp`, and every
embedded method additionally returns the ordered list of HTTP requests it
issued, so that "no network call precedes this failure" becomes a statement
about that trace.  Pagination `while` loops are embedded with an explicit
fuel argument; running out of fuel is reported by the distinguished `Run.out`
outcome, which no claim relies on.
-/

/-- A scalar JSON-ish Python value as it appears in payload dictionaries. -/
inductive PyVal where
  | str (s : String)
  | num (n : Int)
  | pynone
deriving Repr, DecidableEq

/-- A value stored in an outgoing request's data dictionary: a scalar or a
list (the adapters only ever send flat lists). -/
inductive DataVal where
  | val (v : PyVal)
  | listOf (xs : List PyVal)
deriving Repr, DecidableEq

/-- The Python exceptions raised by the embedded code: the domain error
`GitIssueError`, plus the builtin `ValueError`, `KeyError` and the
unbound-local `NameError`. -/
inductive PyErr where
  | gitIssue (msg : String)
  | valueError (msg : String)
  | keyError (key : String)
  | nameError (name : String)
deriving Repr, DecidableEq

/-- HTTP methods used by the adapters. -/
inductive Method where
  | get | post | patch | put | delete
deriving Repr, DecidableEq

/-- An outgoing HTTP request: method, URL, query parameters (`params=` in the
Python `requests` calls) and body payload entries (`json=`/`data=`). -/
structure Request where
  method : Method
  url : String
  params : List (String × DataVal) := []
  jsonData : List (String × DataVal) := []
deriving Repr, DecidableEq

/-- Detail payload returned by the GitHub per-user endpoint
(`GET user['url']`): the `email` and `name` fields, each nullable. -/
structure GHUserDetail where
  email : Option String := none
  name : Option String := none
deriving Repr, DecidableEq

/-- A GitHub user payload as found in list/search responses:
`id`, `login` and the detail-endpoint URL `url`. -/
structure GHUserPayload where
  id : Nat
  login : String
  url : String
deriving Repr, DecidableEq

/-- A GitLab user payload (`id`, `username`, `name`), inline in responses. -/
structure GLUserPayload where
  id : Nat
  username : String
  name : String
deriving Repr, DecidableEq

/-- A Gogs user payload (`id`, `username`, `email`, `full_name`). -/
structure GogsUserPayload where
  id : Nat
  username : String
  email : PyVal := .pynone
  full_name : PyVal := .pynone
deriving Repr, DecidableEq

/-- The oracle's view of an HTTP response.  `status`/`reason` drive the error
paths; the remaining fields model the JSON payloads the embedded methods
parse: the `next` link header for paginated lists, the JIRA status names,
the JIRA search paging counters, the user lists of the three `user_search`
endpoints, and the GitHub user-detail body. -/
structure Resp where
  status : Nat := 200
  reason : String := ""
  nextLink : Option String := none
  names : List String := []
  maxResults : Nat := 0
  total : Nat := 0
  ghUsers : List GHUserPayload := []
  glUsers : List GLUserPayload := []
  gogsUsers : List GogsUserPayload := []
  ghDetail : GHUserDetail := {}
deriving Repr, DecidableEq

/-- `GitIssueError.__init__` on a failed `Response`: a 404 becomes
`issue not found`, anything else becomes `<status> <reason>`. -/
def gitIssueErrorOfResponse (r : Resp) : PyErr :=
  if r.status = 404 then .gitIssue ("issue not found")
  else .gitIssue (toString r.status ++ " " ++ r.reason)

/-- Python dictionary item access `d[k]`: raises `KeyError` when absent. -/
def dictGet (d : List (String × PyVal)) (k : String) : Except PyErr PyVal :=
  match d.find? (fun p => p.1 = k) with
  | some p => .ok p.2
  | none => .error (.keyError k)

/-- Outcome of an embedded method that contains a pagination loop: normal
return, a raised exception, or fuel exhaustion (the Python loop would still
be running). -/
inductive Run (α : Type) where
  | ok (a : α)
  | err (e : PyErr)
  | out
deriving Repr, DecidableEq

/-! ## Service resolver (`git_issue/__init__.py`, `get_service`) -/

/-- The backend adapter classes registered in `get_service`'s dispatch
dictionary. -/
inductive ServiceKind where
  | gitHub | gitLab | gogs
deriving Repr, DecidableEq

/-- `get_service`: reads `issue.service` from git config (`none` models the
config lookup failing with `CalledProcessError`, i.e. the option unset) and
selects the adapter class from the literal dictionary
`{'GitHub': GitHub, 'GitLab': GitLab, 'Gogs': Gogs}`; a `KeyError` is turned
into `GitIssueError('invalid issue service: %s' % name)` and the unset case
into the `issue service not set` message. -/
def get_service (config : Option String) : Except PyErr ServiceKind :=
  match config with
  | none =>
    .error (.gitIssue ("issue service not set, specify using:\ngit config issue.service <service>"))
  | some name =>
    if name = "GitHub" then .ok .gitHub
    else if name = "GitLab" then .ok .gitLab
    else if name = "Gogs" then .ok .gogs
    else .error (.gitIssue ("invalid issue service: " ++ name))

/-! ## Base entity constructors (`service.py`) -/

/-- `Label.__init__`: `name` must be a string, `color` must be a 6-character
string (its RGB decomposition is not needed by any claim and is kept as the
raw hex string). -/
def labelBaseInit (name color : PyVal) : Except PyErr (String × String) :=
  match name with
  | .str n =>
    match color with
    | .str c =>
      if c.length = 6 then .ok (n, c)
      else .error (.valueError ("color must be a 6 character string"))
    | _ => .error (.valueError ("color must be a 6 character string"))
  | _ => .error (.valueError ("name must be a string"))

/-- The base `Milestone` state: `title`, `description`, `due`, `state` as
stored by `Milestone.__init__`. -/
structure MilestoneBase where
  title : String
  description : String
  due : PyVal
  state : PyVal
deriving Repr, DecidableEq

/-- `Milestone.__init__`: `title` and `description` must be strings, `due`
must be falsy or a string; `state` is stored unchecked. -/
def milestoneBaseInit (title description due state : PyVal) : Except PyErr MilestoneBase :=
  match title with
  | .str t =>
    match description with
    | .str d =>
      match due with
      | .str u => .ok { title := t, description := d, due := .str u, state := state }
      | .pynone => .ok { title := t, description := d, due := .pynone, state := state }
      | _ => .error (.valueError ("due must be a UTC encoded date string"))
    | _ => .error (.valueError ("description must be a string"))
  | _ => .error (.valueError ("title must be a string"))

/-! ## Milestone constructors (GitHub, GitLab, Gogs)

Each `__init__` takes the backend milestone payload dictionary, or `none`
for the sentinel construction with no backing payload; `now` is the wall
clock reading that `arrow.utcnow()` serializes in the default dictionary. -/

/-- A constructed `GitHubMilestone`: the base fields plus `number` and `id`. -/
structure GitHubMilestone where
  base : MilestoneBase
  number : PyVal
  id : PyVal
deriving Repr, DecidableEq

/-- `GitHubMilestone.__init__`: defaults to the sentinel dictionary
`{'title': 'none', 'description': '', 'due_on': str(utcnow()), 'state':
'closed', 'number': 0, 'id': 0}`, then reads `title`, `description`,
`due_on`, `state` for the base constructor and finally `number` and `id`. -/
def GitHubMilestone.init (m : Option (List (String × PyVal))) (now : String) :
    Except PyErr GitHubMilestone := do
  let d := m.getD
    [("title", .str ("none")), ("description", .str ("")),
     ("due_on", .str now), ("state", .str ("closed")),
     ("number", .num 0), ("id", .num 0)]
  let title ← dictGet d ("title")
  let description ← dictGet d ("description")
  let due ← dictGet d ("due_on")
  let state ← dictGet d ("state")
  let base ← milestoneBaseInit title description due state
  let number ← dictGet d ("number")
  let id ← dictGet d ("id")
  return { base := base, number := number, id := id }

/-- A constructed `GitLabMilestone`: the base fields plus `id` and `iid`. -/
structure GitLabMilestone where
  base : MilestoneBase
  id : PyVal
  iid : PyVal
deriving Repr, DecidableEq

/-- `GitLabMilestone.__init__`: defaults to the sentinel dictionary
`{'title': 'none', 'description': '', 'due_date': str(utcnow()), 'state':
'closed', 'id': 0}` — note this dictionary has no `iid` entry — then reads
`title`, `description`, `due_date`, `state` for the base constructor and
finally `id` and `iid` (`milestone['iid']` raises `KeyError` on the
default dictionary). -/
def GitLabMilestone.init (m : Option (List (String × PyVal))) (now : String) :
    Except PyErr GitLabMilestone := do
  let d := m.getD
    [("title", .str ("none")), ("description", .str ("")),
     ("due_date", .str now), ("state", .str ("closed")),
     ("id", .num 0)]
  let title ← dictGet d ("title")
  let description ← dictGet d ("description")
  let due ← dictGet d ("due_date")
  let state ← dictGet d ("state")
  let base ← milestoneBaseInit title description due state
  let id ← dictGet d ("id")
  let iid ← dictGet d ("iid")
  return { base := base, id := id, iid := iid }

/-- A constructed `GogsMilestone`: the base fields plus `id`. -/
structure GogsMilestone where
  base : MilestoneBase
  id : PyVal
deriving Repr, DecidableEq

/-- `GogsMilestone.__init__`: defaults to the sentinel dictionary
`{'title': 'none', 'description': '', 'due_on': str(utcnow()), 'state':
'closed', 'id': 0}`, then reads the base fields and `id`. -/
def GogsMilestone.init (m : Option (List (String × PyVal))) (now : String) :
    Except PyErr GogsMilestone := do
  let d := m.getD
    [("title", .str ("none")), ("description", .str ("")),
     ("due_on", .str now), ("state", .str ("closed")),
     ("id", .num 0)]
  let title ← dictGet d ("title")
  let description ← dictGet d ("description")
  let due ← dictGet d ("due_on")
  let state ← dictGet d ("state")
  let base ← milestoneBaseInit title description due state
  let id ← dictGet d ("id")
  return { base := base, id := id }

/-! ## Label constructors (GitHub, GitLab, Gogs) -/

/-- A constructed `GitHubLabel`: `id` is only set when the payload has one. -/
structure GitHubLabel where
  name : String
  color : String
  id : Option PyVal := none
deriving Repr, DecidableEq

/-- `GitHubLabel.__init__`: defaults to the sentinel dictionary
`{'name': 'none', 'color': 'ffffff', 'id': 0}`; `self.id` is assigned only
`if 'id' in label`. -/
def GitHubLabel.init (l : Option (List (String × PyVal))) : Except PyErr GitHubLabel := do
  let d := l.getD [("name", .str ("none")), ("color", .str ("ffffff")), ("id", .num 0)]
  let name ← dictGet d ("name")
  let color ← dictGet d ("color")
  let (n, c) ← labelBaseInit name color
  match d.find? (fun p => p.1 = "id") with
  | some p => return { name := n, color := c, id := some p.2 }
  | none => return { name := n, color := c, id := none }

/-- A constructed `GogsLabel`. -/
structure GogsLabel where
  name : String
  color : String
  id : PyVal
deriving Repr, DecidableEq

/-- `GogsLabel.__init__`: defaults to the sentinel dictionary
`{'name': 'none', 'color': 'ffffff', 'id': 0}`; `self.id = label['id']`
unconditionally. -/
def GogsLabel.init (l : Option (List (String × PyVal))) : Except PyErr GogsLabel := do
  let d := l.getD [("name", .str ("none")), ("color", .str ("ffffff")), ("id", .num 0)]
  let name ← dictGet d ("name")
  let color ← dictGet d ("color")
  let (n, c) ← labelBaseInit name color
  let id ← dictGet d ("id")
  return { name := n, color := c, id := id }

/-- A constructed `GitLabLabel`: `id` is unset (`none`) on the sentinel and
string-payload paths. -/
structure GitLabLabel where
  name : String
  color : String
  id : Option PyVal := none
deriving Repr, DecidableEq

/-- `GitLabLabel.__init__` on the dictionary-payload branch: `name` from
`label['name']`, `color` from `label['color']` with a leading `#` stripped,
`id` from `label['id']`. -/
def GitLabLabel.init (l : List (String × PyVal)) : Except PyErr GitLabLabel := do
  let name ← dictGet l ("name")
  let colorRaw ← dictGet l ("color")
  let color :=
    match colorRaw with
    | .str c => PyVal.str (c.replace ("#") (""))
    | v => v
  let id ← dictGet l ("id")
  let (n, c) ← labelBaseInit name color
  return { name := n, color := c, id := some id }

/-- `GitLabLabel()` with no payload: the sentinel branch sets
`name = 'none'`, `color = 'ffffff'`, `id = None`. -/
def GitLabLabel.default : GitLabLabel :=
  { name := "none", color := "ffffff", id := none }

/-- `GitLabLabel.__init__` on the string-payload branch (GitLab returns bare
label names inside issue payloads): the color is looked up in the
module-level `CACHE['labels']`; when the cache is populated but contains no
label of that name the local `color` is never assigned and the constructor
dies with an unbound-local `NameError`; when the cache key is absent the
color falls back to `'ffffff'`. -/
def GitLabLabel.ofString (label : String) (cacheLabels : Option (List GitLabLabel)) :
    Except PyErr GitLabLabel :=
  match cacheLabels with
  | some ls =>
    match ls.find? (fun l => l.name = label) with
    | some l => .ok { name := label, color := l.color, id := none }
    | none => .error (.nameError ("color"))
  | none => .ok { name := label, color := "ffffff", id := none }

/-! ## Constructed user entities -/

/-- A constructed `GitHubUser` (`username` from the list payload, `email` and
`name` from the memoized detail fetch, plus the backend `id`). -/
structure GitHubUser where
  username : String
  email : Option String := none
  name : Option String := none
  id : Nat
deriving Repr, DecidableEq

/-- A constructed `GitLabUser`: `GitLabUser.__init__` passes
`user['username']`, `None`, `user['name']` to the base constructor and
stores `user['id']`; the email is always absent. -/
structure GitLabUser where
  username : String
  name : String
  id : Nat
deriving Repr, DecidableEq

/-- `GitLabUser.__init__` from an inline user payload. -/
def GitLabUser.init (user : GLUserPayload) : GitLabUser :=
  { username := user.username, name := user.name, id := user.id }

/-- A constructed `GogsUser` (`username`, `email`, `full_name`, `id`, all
inline in the payload). -/
structure GogsUser where
  username : String
  email : PyVal := .pynone
  name : PyVal := .pynone
  id : PyVal
deriving Repr, DecidableEq

/-- `GogsUser.__init__` from an inline user payload. -/
def GogsUser.init (user : GogsUserPayload) : GogsUser :=
  { username := user.username, email := user.email, name := user.full_name,
    id := .num user.id }

/-! ## Service construction (`__init__` of each `Service` subclass)

Each `__init__` derives its URL fields from the already-resolved
configuration (protocol, Git remote resource, owner/repo path, token); the
configuration lookup itself (`get_protocol`, `get_resource`, ...) is the
excluded glue layer, so those resolved strings are parameters here. -/

/-- The URL/auth fields stored by `GitHub.__init__`. -/
structure GitHubService where
  url : String
  apiUrl : String
  reposUrl : String
  issuesUrl : String
  token : String
deriving Repr, DecidableEq

/-- `GitHub.__init__`: `url = protocol://resource`,
`api_url = protocol://api.resource`, `repos_url = api_url/repos/owner-repo`,
`issues_url = repos_url/issues`. -/
def GitHubService.init (protocol resource ownerRepo token : String) : GitHubService :=
  let url := protocol ++ "://" ++ resource
  let apiUrl := protocol ++ "://api." ++ resource
  let reposUrl := apiUrl ++ "/repos/" ++ ownerRepo
  { url := url, apiUrl := apiUrl, reposUrl := reposUrl,
    issuesUrl := reposUrl ++ "/issues", token := token }

/-- `urllib`'s `quote_plus` on a single character, for the byte range the
repository paths use: alphanumerics and `-`, `_`, `.` pass through, a space
becomes `+`, anything else is percent-encoded. -/
def quotePlusChar (c : Char) : String :=
  if c.isAlphanum || c = '-' || c = '_' || c = '.' then String.singleton c
  else if c = ' ' then "+"
  else
    let hex := fun (n : Nat) => "0123456789ABCDEF".toList.getD n '0'
    "%" ++ String.singleton (hex (c.toNat / 16)) ++ String.singleton (hex (c.toNat % 16))

/-- `quote_plus` over a string (e.g. `owner/repo` becomes `owner%2Frepo`). -/
def quotePlus (s : String) : String :=
  String.join (s.toList.map quotePlusChar)

/-- The URL fields stored by `GitLab.__init__`. -/
structure GitLabService where
  apiUrl : String
  projectUrl : String
  issuesUrl : String
  usersUrl : String
deriving Repr, DecidableEq

/-- `GitLab.__init__`: `api_url = protocol://resource/api/v4`,
`project_url = api_url/projects/quote_plus(owner-repo)`,
`issues_url = project_url/issues`, `users_url = api_url/users`. -/
def GitLabService.init (protocol resource ownerRepo : String) : GitLabService :=
  let apiUrl := protocol ++ "://" ++ resource ++ "/api/v4"
  let projectUrl := apiUrl ++ "/projects/" ++ quotePlus ownerRepo
  { apiUrl := apiUrl, projectUrl := projectUrl,
    issuesUrl := projectUrl ++ "/issues", usersUrl := apiUrl ++ "/users" }

/-- The URL/auth fields stored by `Gogs.__init__`. -/
structure GogsService where
  url : String
  apiUrl : String
  reposUrl : String
  token : String
deriving Repr, DecidableEq

/-- `Gogs.__init__`: `url = protocol://resource`, `api_url = url/api/v1`,
`repos_url = api_url/repos/owner-repo`. -/
def GogsService.init (protocol resource ownerRepo token : String) : GogsService :=
  let url := protocol ++ "://" ++ resource
  let apiUrl := url ++ "/api/v1"
  { url := url, apiUrl := apiUrl, reposUrl := apiUrl ++ "/repos/" ++ ownerRepo,
    token := token }

/-- The URL fields stored by `JIRA.__init__`. -/
structure JIRAService where
  url : String
  key : String
  apiUrl : String
  projectUrl : String
  searchUrl : String
  issueUrl : String
deriving Repr, DecidableEq

/-- `JIRA.__init__`: `api_url = url/rest/api/2`,
`project_url = api_url/project/key`, `search_url = api_url/search`,
`issue_url = api_url/issue`. -/
def JIRAService.init (url key : String) : JIRAService :=
  let apiUrl := url ++ "/rest/api/2"
  { url := url, key := key, apiUrl := apiUrl,
    projectUrl := apiUrl ++ "/project/" ++ key,
    searchUrl := apiUrl ++ "/search", issueUrl := apiUrl ++ "/issue" }

/-! ## `edit` (GitHubIssue, GitLabIssue, GogsIssue)

Keyword arguments are modelled by an argument record whose fields default to
the Python defaults (`None` / `[]`).  Python truthiness is preserved: an
empty-string `title`/`body` is falsy and therefore skipped exactly as the
source's `if title:` does.  The `isinstance` checks hold by typing here.  On
success the adapters construct a fresh `Issue` from the response body; the
claims about `edit` concern only its error behavior and request trace, so
the embedded functions return `Unit` for the success payload. -/

/-- The recognized keyword arguments of `GitHubIssue.edit`. -/
structure GitHubEditArgs where
  title : Option String := none
  body : Option String := none
  assignee : Option GitHubUser := none
  milestone : Option GitHubMilestone := none
  labels : List GitHubLabel := []

/-- `GitHubIssue.edit`: builds the `data` payload field by field (with the
milestone and label `"none"` sentinels mapped to `null` / the empty list),
raises `aborted edit due to no changes` when `data` stayed empty, and
otherwise PATCHes the issue URL. -/
def GitHubIssue.edit (issueUrl : String) (args : GitHubEditArgs) (http : Request → Resp) :
    Except PyErr Unit × List Request :=
  let data : List (String × DataVal) := []
  let data : List (String × DataVal) := match args.title with
    | some t => if t = "" then data else data ++ [("title", .val (.str t))]
    | none => data
  let data : List (String × DataVal) := match args.body with
    | some b => if b = "" then data else data ++ [("body", .val (.str b))]
    | none => data
  let data : List (String × DataVal) := match args.assignee with
    | some a => data ++ [("assignees", .listOf [.str a.username])]
    | none => data
  let data : List (String × DataVal) := match args.milestone with
    | some m =>
      if m.base.title = "none" then data ++ [("milestone", .val .pynone)]
      else data ++ [("milestone", .val m.number)]
    | none => data
  let data : List (String × DataVal) := match args.labels with
    | [] => data
    | ls =>
      if ls.any (fun l => l.name = "none") then data ++ [("labels", .listOf [])]
      else data ++ [("labels", .listOf (ls.map (fun l => PyVal.str l.name)))]
  if data.length = 0 then (.error (.gitIssue ("aborted edit due to no changes")), [])
  else
    let req : Request := { method := .patch, url := issueUrl, jsonData := data }
    let r := http req
    if r.status = 200 then (.ok (), [req])
    else (.error (gitIssueErrorOfResponse r), [req])

/-- The recognized keyword arguments of `GitLabIssue.edit`. -/
structure GitLabEditArgs where
  title : Option String := none
  body : Option String := none
  assignee : Option GitLabUser := none
  labels : List GitLabLabel := []
  milestone : Option GitLabMilestone := none

/-- `GitLabIssue.edit`: builds the `data` payload (body under `description`,
labels cleared to the empty string on the `"none"` sentinel), then — in the
source's own order — performs the PUT **first** and only afterwards checks
`len(data) == 0` to raise `aborted edit due to no changes`. -/
def GitLabIssue.edit (issueUrl : String) (args : GitLabEditArgs) (http : Request → Resp) :
    Except PyErr Unit × List Request :=
  let data : List (String × DataVal) := []
  let data : List (String × DataVal) := match args.title with
    | some t => if t = "" then data else data ++ [("title", .val (.str t))]
    | none => data
  let data : List (String × DataVal) := match args.body with
    | some b => if b = "" then data else data ++ [("description", .val (.str b))]
    | none => data
  let data : List (String × DataVal) := match args.assignee with
    | some a => data ++ [("assignee_ids", .listOf [.num a.id])]
    | none => data
  let data : List (String × DataVal) := match args.labels with
    | [] => data
    | ls =>
      if ls.any (fun l => l.name = "none") then data ++ [("labels", .val (.str ("")))]
      else data ++ [("labels", .listOf (ls.map (fun l => PyVal.str l.name)))]
  let data : List (String × DataVal) := match args.milestone with
    | some m => data ++ [("milestone_id", .val m.id)]
    | none => data
  let req : Request := { method := .put, url := issueUrl, jsonData := data }
  let r := http req
  if data.length = 0 then (.error (.gitIssue ("aborted edit due to no changes")), [req])
  else if r.status = 200 then (.ok (), [req])
  else (.error (gitIssueErrorOfResponse r), [req])

/-- The recognized keyword arguments of `GogsIssue.edit`. -/
structure GogsEditArgs where
  title : Option String := none
  body : Option String := none
  assignee : Option GogsUser := none
  milestone : Option GogsMilestone := none
  labels : List GogsLabel := []

/-- The final PATCH of `GogsIssue.edit` (Gogs reports 201 on success). -/
def GogsIssue.editPatch (issueUrl : String) (data : List (String × DataVal))
    (http : Request → Resp) (trace : List Request) :
    Except PyErr Unit × List Request :=
  let req : Request := { method := .patch, url := issueUrl, jsonData := data }
  let r := http req
  if r.status = 201 then (.ok (), trace ++ [req])
  else (.error (gitIssueErrorOfResponse r), trace ++ [req])

/-- `GogsIssue.edit`: builds the `data` payload (labels as backend ids,
cleared to the empty list on the `"none"` sentinel), raises
`aborted edit due to no changes` when `data` stayed empty, then pops the
`labels` entry and routes it through the separate labels API — a DELETE of
all labels when the sentinel emptied the list, a PUT replacing them
otherwise — before PATCHing the remaining fields. -/
def GogsIssue.edit (issueUrl : String) (args : GogsEditArgs) (http : Request → Resp) :
    Except PyErr Unit × List Request :=
  let data : List (String × DataVal) := []
  let data : List (String × DataVal) := match args.title with
    | some t => if t = "" then data else data ++ [("title", .val (.str t))]
    | none => data
  let data : List (String × DataVal) := match args.body with
    | some b => if b = "" then data else data ++ [("body", .val (.str b))]
    | none => data
  let data : List (String × DataVal) := match args.assignee with
    | some a => data ++ [("assignee", .val (.str a.username))]
    | none => data
  let data : List (String × DataVal) := match args.milestone with
    | some m => data ++ [("milestone", .val m.id)]
    | none => data
  let data : List (String × DataVal) := match args.labels with
    | [] => data
    | ls =>
      if ls.any (fun l => l.name = "none") then data ++ [("labels", .listOf [])]
      else data ++ [("labels", .listOf (ls.map (fun l => l.id)))]
  if data.length = 0 then (.error (.gitIssue ("aborted edit due to no changes")), [])
  else
    match data.find? (fun p => p.1 = "labels") with
    | none => GogsIssue.editPatch issueUrl data http []
    | some entry =>
      let data := data.filter (fun p => p.1 ≠ "labels")
      let ls := match entry.2 with
        | .listOf xs => xs
        | .val _ => []
      if ls.length = 0 then
        let req : Request := { method := .delete, url := issueUrl ++ "/labels" }
        let r := http req
        if r.status = 204 then GogsIssue.editPatch issueUrl data http [req]
        else (.error (gitIssueErrorOfResponse r), [req])
      else
        let req : Request :=
          { method := .put, url := issueUrl ++ "/labels",
            jsonData := [("labels", .listOf ls)] }
        let r := http req
        if r.status = 200 then GogsIssue.editPatch issueUrl data http [req]
        else (.error (gitIssueErrorOfResponse r), [req])

/-! ## `issues` (all four adapters)

Each `issues(state)` embedding returns the outcome together with the
ordered request trace; the returned `Issue` collection itself is not
inspected by any claim, so the successful payload is `Unit`.  Pagination
loops take fuel. -/

/-- Runs one bucket after another, concatenating traces and stopping at the
first non-`ok` outcome (an exception aborts the surrounding `for` loop). -/
def runBuckets (f : String → Run Unit × List Request) : List String → Run Unit × List Request
  | [] => (.ok (), [])
  | b :: bs =>
    let step := f b
    match step.1 with
    | .ok _ =>
      let rest := runBuckets f bs
      (rest.1, step.2 ++ rest.2)
    | o => (o, step.2)

/-- The names of the three states `GitHub.states` constructs
(`GitHubIssueState('open'/'closed'/'all')`); that method performs no I/O. -/
def GitHub.statesNames : List String := ["open", "closed", "all"]

/-- The page-following loop of `GitHub.issues`: GET the current URL with the
`state` parameter, accumulate, and follow the `next` link header while one
is present. -/
def GitHub.issuesLoop (http : Request → Resp) (state : String) :
    Nat → String → Run Unit × List Request
  | 0, _ => (.out, [])
  | fuel + 1, url =>
    let req : Request :=
      { method := .get, url := url, params := [("state", .val (.str state))] }
    let r := http req
    if r.status = 200 then
      match r.nextLink with
      | none => (.ok (), [req])
      | some nxt =>
        let rest := GitHub.issuesLoop http state fuel nxt
        (rest.1, req :: rest.2)
    else (.err (gitIssueErrorOfResponse r), [req])

/-- `GitHub.issues`: validates `state` against the names of `self.states()`
(a pure local list for GitHub) before any request, then pages through the
issues URL. -/
def GitHub.issues (svc : GitHubService) (state : String) (http : Request → Resp)
    (fuel : Nat) : Run Unit × List Request :=
  if GitHub.statesNames.contains state = false then
    (.err (.gitIssue ("state must be one of " ++
      String.intercalate (", ") (GitHub.statesNames.map (fun s => "\"" ++ s ++ "\"")))), [])
  else GitHub.issuesLoop http state fuel svc.issuesUrl

/-- `_encode_state_` (GitLab): the literal dictionary
`{'open': 'opened', 'closed': 'closed', None: None}`; any other key is a
`KeyError`. -/
def GitLab.encodeState (state : String) : Except PyErr String :=
  if state = "open" then .ok ("opened")
  else if state = "closed" then .ok ("closed")
  else .error (.keyError state)

/-- The state-bucket dictionary of `GitLab.issues`:
`{'open': ['open'], 'closed': ['closed'], 'all': ['open', 'closed']}`. -/
def GitLab.stateBuckets (state : String) : Except PyErr (List String) :=
  if state = "open" then .ok ["open"]
  else if state = "closed" then .ok ["closed"]
  else if state = "all" then .ok ["open", "closed"]
  else .error (.keyError state)

/-- The page-following loop of `GitLab.issues` for one already-encoded state
bucket (`state`, `scope=all`, `per_page=100`). -/
def GitLab.issuesLoop (http : Request → Resp) (encState : String) :
    Nat → String → Run Unit × List Request
  | 0, _ => (.out, [])
  | fuel + 1, url =>
    let req : Request :=
      { method := .get, url := url,
        params := [("state", .val (.str encState)), ("scope", .val (.str ("all"))),
                   ("per_page", .val (.num 100))] }
    let r := http req
    if r.status = 200 then
      match r.nextLink with
      | none => (.ok (), [req])
      | some nxt =>
        let rest := GitLab.issuesLoop http encState fuel nxt
        (rest.1, req :: rest.2)
    else (.err (gitIssueErrorOfResponse r), [req])

/-- `GitLab.issues`: rejects any `state` outside `['open', 'closed']` (note:
this excludes `'all'` even though `GitLab.states` lists it and the bucket
dictionary maps it), then fetches the project labels into the module cache
(errors swallowed by the `try/except`), then loops over the state buckets
sorting the result reverse-chronologically (the sort is on the elided issue
list). -/
def GitLab.issues (svc : GitLabService) (state : String) (http : Request → Resp)
    (fuel : Nat) : Run Unit × List Request :=
  if (["open", "closed"].contains state) = false then
    (.err (.gitIssue ("invalid issue state: " ++ state)), [])
  else
    let labReq : Request := { method := .get, url := svc.projectUrl ++ "/labels" }
    let _ := http labReq
    match GitLab.stateBuckets state with
    | .error e => (.err e, [labReq])
    | .ok buckets =>
      let rest := runBuckets
        (fun b =>
          match GitLab.encodeState b with
          | .ok es => GitLab.issuesLoop http es fuel svc.issuesUrl
          | .error e => (.err e, []))
        buckets
      (rest.1, labReq :: rest.2)

/-- The state-bucket dictionary of `Gogs.issues`:
`{'open': ['open'], 'closed': ['closed'], 'all': ['open', 'closed']}`. -/
def Gogs.stateBuckets (state : String) : Except PyErr (List String) :=
  if state = "open" then .ok ["open"]
  else if state = "closed" then .ok ["closed"]
  else if state = "all" then .ok ["open", "closed"]
  else .error (.keyError state)

/-- The page-following loop of `Gogs.issues` for one state bucket. -/
def Gogs.issuesLoop (http : Request → Resp) (state : String) :
    Nat → String → Run Unit × List Request
  | 0, _ => (.out, [])
  | fuel + 1, url =>
    let req : Request :=
      { method := .get, url := url, params := [("state", .val (.str state))] }
    let r := http req
    if r.status = 200 then
      match r.nextLink with
      | none => (.ok (), [req])
      | some nxt =>
        let rest := Gogs.issuesLoop http state fuel nxt
        (rest.1, req :: rest.2)
    else (.err (gitIssueErrorOfResponse r), [req])

/-- `Gogs.issues`: rejects any `state` outside `['open', 'closed', 'all']`
with a `ValueError` before any request, then loops over the state buckets
(Gogs has no combined filter, so `'all'` iterates `'open'` then
`'closed'`), paginating each via the `next` link header. -/
def Gogs.issues (svc : GogsService) (state : String) (http : Request → Resp)
    (fuel : Nat) : Run Unit × List Request :=
  if (["open", "closed", "all"].contains state) = false then
    (.err (.valueError ("state must be a string and one of \"open\", \"closed\", or \"all\"")), [])
  else
    match Gogs.stateBuckets state with
    | .error e => (.err e, [])
    | .ok buckets =>
      runBuckets (fun b => Gogs.issuesLoop http b fuel (svc.reposUrl ++ "/issues")) buckets

/-- The request `JIRA.states` sends: `GET <api_url>/status`. -/
def JIRA.statusRequest (svc : JIRAService) : Request :=
  { method := .get, url := svc.apiUrl ++ "/status" }

/-- `JIRA.states`: fetches the backend status list over HTTP; on a 200 the
status names are returned (the constructed `JIRAIssueState` objects also
carry display colors, which no claim inspects), otherwise the response
becomes a `GitIssueError`. -/
def JIRA.states (svc : JIRAService) (http : Request → Resp) :
    Except PyErr (List String) × List Request :=
  if (http (JIRA.statusRequest svc)).status = 200 then
    (.ok (http (JIRA.statusRequest svc)).names, [JIRA.statusRequest svc])
  else (.error (gitIssueErrorOfResponse (http (JIRA.statusRequest svc))), [JIRA.statusRequest svc])

/-- The JQL string `JIRA.issues` builds: the project filter, then the
`statusCategory` predicate for `open`/`closed`/`all` (the `all` predicate is
empty, leaving a trailing `&`), or a literal `status="<state>"` filter for a
backend-native status name (the dictionary lookup's `KeyError` path). -/
def JIRA.jql (svc : JIRAService) (state : String) : String :=
  let base := "project=\"" ++ svc.key ++ "\""
  if state = "open" then base ++ "&" ++ "statusCategory!=\"Done\""
  else if state = "closed" then base ++ "&" ++ "statusCategory=\"Done\""
  else if state = "all" then base ++ "&"
  else base ++ "&status=\"" ++ state ++ "\""

/-- The `ISSUE_FIELDS` constant of `jira.py`. -/
def ISSUE_FIELDS : List PyVal :=
  [.str ("assignee"), .str ("comment"), .str ("created"), .str ("description"),
   .str ("components"), .str ("reporter"), .str ("status"), .str ("summary"),
   .str ("updated"), .str ("fixVersions")]

/-- The offset-based search loop of `JIRA.issues`: repeatedly GET the search
URL with `startAt`, advance by the page's `maxResults`, and stop once
`startAt` exceeds the reported `total`. -/
def JIRA.searchLoop (svc : JIRAService) (http : Request → Resp) (state : String) :
    Nat → Nat → Run Unit × List Request
  | 0, _ => (.out, [])
  | fuel + 1, startAt =>
    let req : Request :=
      { method := .get, url := svc.searchUrl,
        params := [("jql", .val (.str (JIRA.jql svc state))),
                   ("startAt", .val (.num (Int.ofNat startAt))),
                   ("fields", .listOf ISSUE_FIELDS)] }
    let r := http req
    if r.status = 200 then
      let nextStart := startAt + r.maxResults
      if r.total < nextStart then (.ok (), [req])
      else
        let rest := JIRA.searchLoop svc http state fuel nextStart
        (rest.1, req :: rest.2)
    else (.err (gitIssueErrorOfResponse r), [req])

/-- `JIRA.issues`: first calls `self.states()` — an HTTP GET of the status
list — to build the recognized-state list `['open', 'closed', 'all'] +
status names`, raises the `state must be one of ...` error for anything
outside it, and otherwise runs the offset-based search. -/
def JIRA.issues (svc : JIRAService) (state : String) (http : Request → Resp)
    (fuel : Nat) : Run Unit × List Request :=
  match JIRA.states svc http with
  | (.ok names, tr) =>
    let states := ["open", "closed", "all"] ++ names
    if states.contains state = false then
      (.err (.gitIssue ("state must be one of " ++
        String.intercalate (", ") (states.map (fun s => "\"" ++ s ++ "\"")))), tr)
    else
      let rest := JIRA.searchLoop svc http state fuel 0
      (rest.1, tr ++ rest.2)
  | (.error e, tr) => (.err e, tr)

/-! ## `user_search` and the GitHub user cache (`CACHE = {'users': {}}`)

`github.py`'s `CACHE` is a module-level dictionary: it is created at import
time, belongs to no `GitHub` instance, and every `GitHubUser` construction
in the process reads and writes it.  It is modelled as an explicit value of
type `GHUserCache` threaded through the embedded constructors. -/

/-- The module-level GitHub user-detail cache (`CACHE['users']`), keyed by
backend user id. -/
abbrev GHUserCache := List (Nat × GHUserDetail)

/-- The outcome of `GitHubUser.__init__`: the constructed user, the module
cache after the call, and the detail requests issued. -/
structure GHUserInitResult where
  user : GitHubUser
  cache : GHUserCache
  trace : List Request
deriving Repr, DecidableEq

/-- `GitHubUser.__init__`: when the id is not in the module cache, GET the
user's detail URL and cache the body on a 200 (a failed fetch caches
nothing); then populate `email`/`name` from the cache entry if one exists. -/
def GitHubUser.init (user : GHUserPayload) (http : Request → Resp) (cache : GHUserCache) :
    GHUserInitResult :=
  let step : GHUserCache × List Request :=
    match cache.find? (fun p => p.1 = user.id) with
    | some _ => (cache, [])
    | none =>
      let req : Request := { method := .get, url := user.url }
      let r := http req
      if r.status = 200 then (cache ++ [(user.id, r.ghDetail)], [req])
      else (cache, [req])
  let more := (step.1.find? (fun p => p.1 = user.id)).map (fun p => p.2)
  { user := { username := user.login,
              email := match more with | some d => d.email | none => none,
              name := match more with | some d => d.name | none => none,
              id := user.id },
    cache := step.1, trace := step.2 }

/-- `GitHubUser` construction "via" a particular `GitHub` service instance:
the Python constructor never touches the instance — only the module-level
cache — so this is literally `GitHubUser.init` with the instance ignored. -/
def GitHubUser.initVia (_svc : GitHubService) (user : GHUserPayload)
    (http : Request → Resp) (cache : GHUserCache) : GHUserInitResult :=
  GitHubUser.init user http cache

/-- `GitLabLabel` string-branch construction "via" a particular `GitLab`
service instance: as with GitHub, the constructor reads only the
module-level `CACHE`, never the instance. -/
def GitLabLabel.ofStringVia (_svc : GitLabService) (label : String)
    (cacheLabels : Option (List GitLabLabel)) : Except PyErr GitLabLabel :=
  GitLabLabel.ofString label cacheLabels

/-- `GitHub.user_search`: GET `<api_url>/search/users?q=keyword`; on a 200
every payload item is turned into a `GitHubUser` (threading the module
cache); the result list is returned as-is — there is no zero-match check. -/
def GitHub.user_search (svc : GitHubService) (keyword : String)
    (http : Request → Resp) (cache : GHUserCache) :
    Except PyErr (List GitHubUser) × List Request × GHUserCache :=
  let req : Request :=
    { method := .get, url := svc.apiUrl ++ "/search/users",
      params := [("q", .val (.str keyword))] }
  let r := http req
  if r.status = 200 then
    let step := r.ghUsers.foldl
      (fun (acc : List GitHubUser × GHUserCache × List Request) u =>
        let res := GitHubUser.init u http acc.2.1
        (acc.1 ++ [res.user], res.cache, acc.2.2 ++ res.trace))
      ([], cache, [])
    (.ok step.1, req :: step.2.2, step.2.1)
  else (.error (gitIssueErrorOfResponse r), [req], cache)

/-- `GitLab.user_search`: GET `<users_url>?search=keyword`; a 200 with zero
users raises `unable to find user: <keyword>`. -/
def GitLab.user_search (svc : GitLabService) (keyword : String)
    (http : Request → Resp) : Except PyErr (List GitLabUser) × List Request :=
  let req : Request :=
    { method := .get, url := svc.usersUrl, params := [("search", .val (.str keyword))] }
  let r := http req
  if r.status = 200 then
    let users := r.glUsers.map GitLabUser.init
    if users.length = 0 then
      (.error (.gitIssue ("unable to find user: " ++ keyword)), [req])
    else (.ok users, [req])
  else (.error (gitIssueErrorOfResponse r), [req])

/-- `Gogs.user_search`: GET `<api_url>/users/search?q=keyword`; a 200 whose
`data` list is empty raises `unable to find user: <keyword>`. -/
def Gogs.user_search (svc : GogsService) (keyword : String)
    (http : Request → Resp) : Except PyErr (List GogsUser) × List Request :=
  let req : Request :=
    { method := .get, url := svc.apiUrl ++ "/users/search",
      params := [("q", .val (.str keyword))] }
  let r := http req
  if r.status = 200 then
    let users := r.gogsUsers
    if users.length = 0 then
      (.error (.gitIssue ("unable to find user: " ++ keyword)), [req])
    else (.ok (users.map GogsUser.init), [req])
  else (.error (gitIssueErrorOfResponse r), [req])

/-! ## Gogs comments and event synthesis (`GogsIssue.events`) -/

/-- A raw Gogs comment payload as cached by `GogsIssue._comments_`
(`self.cache['comments']` holds the raw JSON list, not constructed
`GogsIssueComment` objects). -/
structure GogsComment where
  body : String
  created_at : String
  id : Nat
  user : GogsUserPayload
deriving Repr, DecidableEq

/-- Python string comparison on character lists: lexicographic by code
point. -/
def pyCharsLt : List Char → List Char → Bool
  | [], [] => false
  | [], _ :: _ => true
  | _ :: _, [] => false
  | a :: as, b :: bs =>
    if a.toNat < b.toNat then true
    else if b.toNat < a.toNat then false
    else pyCharsLt as bs

/-- Python string comparison (`<`), lexicographic by code point. -/
def pyStrLt (a b : String) : Bool := pyCharsLt a.toList b.toList

/-- Python 2 ordering of two comment dictionaries with identical key sets:
values are compared in sorted-key order — `body`, then `created_at`, then
`id` (the remaining keys would only be compared if the backend-unique ids
tied). -/
def pyDictLt (a b : GogsComment) : Bool :=
  if a.body ≠ b.body then pyStrLt a.body b.body
  else if a.created_at ≠ b.created_at then pyStrLt a.created_at b.created_at
  else decide (a.id < b.id)

/-- One insertion step of the ascending sort on comment dictionaries. -/
def insertComment (c : GogsComment) : List GogsComment → List GogsComment
  | [] => [c]
  | d :: ds => if pyDictLt c d then c :: d :: ds else d :: insertComment c ds

/-- `sorted(...)` over the raw comment list (ascending by `pyDictLt`). -/
def pySorted (cs : List GogsComment) : List GogsComment :=
  cs.foldr insertComment []

/-- A constructed `GogsIssueState` (`name` plus the hardcoded color). -/
structure GogsIssueState where
  name : String
  color : String
deriving Repr, DecidableEq

/-- `GogsIssueState.__init__`: color from the literal dictionary
`{'closed': 'red', 'open': 'green'}`; other names are a `KeyError`. -/
def GogsIssueState.init (state : String) : Except PyErr GogsIssueState :=
  if state = "closed" then .ok { name := state, color := "red" }
  else if state = "open" then .ok { name := state, color := "green" }
  else .error (.keyError state)

/-- The value the `state` local of `GogsIssue.events` holds: it starts as
`self.state` — the `GogsIssueState` *object* — and is reassigned to the
plain strings produced by the toggle dictionary afterwards. -/
inductive GogsStateKey where
  | str (s : String)
  | obj (st : GogsIssueState)
deriving Repr, DecidableEq

/-- The lookup `{'open': 'reopened', 'closed': 'closed'}[state]` inside
`GogsIssue.events`.  Its keys are the strings `'open'`/`'closed'`; a
`GogsIssueState` object used as the key never equals either string, so the
lookup raises `KeyError` (shown here with the object's repr). -/
def gogsActionLookup (k : GogsStateKey) : Except PyErr String :=
  match k with
  | .str s =>
    if s = "open" then .ok ("reopened")
    else if s = "closed" then .ok ("closed")
    else .error (.keyError s)
  | .obj st => .error (.keyError ("<GogsIssueState " ++ st.name ++ ">"))

/-- The lookup `{'open': 'closed', 'closed': 'open'}[state]` inside
`GogsIssue.events`, with the same object-key failure mode. -/
def gogsToggleLookup (k : GogsStateKey) : Except PyErr String :=
  match k with
  | .str s =>
    if s = "open" then .ok ("closed")
    else if s = "closed" then .ok ("open")
    else .error (.keyError s)
  | .obj st => .error (.keyError ("<GogsIssueState " ++ st.name ++ ">"))

/-- The walk of `GogsIssue.events` over `reversed(sorted(comments))`: every
empty-body entry emits one event whose action comes from the action
dictionary indexed with the current `state` value, after which `state` is
reassigned via the toggle dictionary. -/
def GogsIssue.eventsWalk : GogsStateKey → List GogsComment →
    Except PyErr (List (String × GogsComment))
  | _, [] => .ok []
  | st, c :: cs =>
    if c.body.length = 0 then do
      let action ← gogsActionLookup st
      let st2 ← gogsToggleLookup st
      let rest ← GogsIssue.eventsWalk (.str st2) cs
      return (action, c) :: rest
    else GogsIssue.eventsWalk st cs

/-- `GogsIssue.events` (given the issue's current `self.state` object and
the cached raw comment list): sort the comments, walk them most recent
first, and synthesize one `(action, entry)` event per empty-body entry. -/
def GogsIssue.events (state : GogsIssueState) (comments : List GogsComment) :
    Except PyErr (List (String × GogsComment)) :=
  GogsIssue.eventsWalk (.obj state) (pySorted comments).reverse

/-- The walk as the source intends it (and as `GogsIssue.events` would
behave had it started from the state's *name*): starting from the current
state name, not the state object. -/
def GogsIssue.eventsFromName (stateName : String) (comments : List GogsComment) :
    Except PyErr (List (String × GogsComment)) :=
  GogsIssue.eventsWalk (.str stateName) (pySorted comments).reverse

/-! ## `GogsIssue.__init__` and the base `Issue.__init__` (claim C10 area)

The base constructor receives its optional fields as `**kwargs` — a
string-keyed dictionary — and pops the keys `updated`, `assignee`,
`labels`, `milestones`, `num_comments`.  The dictionary is modelled as an
association list over a sum of the value shapes the Gogs adapter passes. -/

/-- A value passed in the base `Issue.__init__` keyword dictionary by the
Gogs adapter (plus the list-of-milestones shape the base class expects). -/
inductive GogsIssueKw where
  | str (s : String)
  | user (u : GogsUser)
  | labels (ls : List GogsLabel)
  | milestone (m : GogsMilestone)
  | milestones (ms : List GogsMilestone)
  | num (n : Nat)
  | pynone
deriving Repr

/-- `kwargs.pop(key, dflt)`: the value under `key` (removing the entry) or
the default. -/
def kwargsPop (ks : List (String × GogsIssueKw)) (key : String) (dflt : GogsIssueKw) :
    GogsIssueKw × List (String × GogsIssueKw) :=
  match ks.find? (fun p => p.1 = key) with
  | some p => (p.2, ks.filter (fun q => q.1 ≠ key))
  | none => (dflt, ks)

/-- The attributes the base `Issue.__init__` stores, with Gogs-typed
entities (the base class is duck-typed; only its Gogs instantiation is
needed by the claims). -/
structure GogsIssueObj where
  number : Nat
  numberId : Nat
  title : String
  body : String
  state : GogsIssueState
  author : GogsUser
  created : String
  updated : Option String
  assignee : Option GogsUser
  labels : List GogsLabel
  milestones : Option (List GogsMilestone)
  num_comments : Nat
deriving Repr

/-- The base `Issue.__init__` specialized to Gogs entity types: the
positional arguments are typed (their `isinstance` checks hold by
construction), and the keyword dictionary is popped exactly as the source
does — `updated`, `assignee`, `labels`, then **`milestones`** (defaulting to
`None` when the key is absent), then `num_comments`. -/
def Issue.initGogs (number numberId : Nat) (title body : String)
    (state : GogsIssueState) (author : GogsUser) (created : String)
    (kwargs : List (String × GogsIssueKw)) : Except PyErr GogsIssueObj := do
  let p1 := kwargsPop kwargs ("updated") .pynone
  let updated ← match p1.1 with
    | .str s => pure (some s)
    | .pynone => pure none
    | _ => throw (.valueError ("updated must be a string"))
  let p2 := kwargsPop p1.2 ("assignee") .pynone
  let assignee ← match p2.1 with
    | .user u => pure (some u)
    | .pynone => pure none
    | _ => throw (.valueError ("assignee must be a subclass of User"))
  let p3 := kwargsPop p2.2 ("labels") (.labels [])
  let labels ← match p3.1 with
    | .labels ls => pure ls
    | _ => throw (.valueError ("labels must be a list of subclasses of Label"))
  let p4 := kwargsPop p3.2 ("milestones") .pynone
  let milestones ← match p4.1 with
    | .milestones ms => pure (some ms)
    | .pynone => pure none
    | _ => throw (.valueError ("milestones must be a list of subclasses of Milestone"))
  let p5 := kwargsPop p4.2 ("num_comments") (.num 0)
  let num_comments ← match p5.1 with
    | .num n => pure n
    | _ => throw (.valueError ("comments must be an integer"))
  return { number := number, numberId := numberId, title := title, body := body,
           state := state, author := author, created := created,
           updated := updated, assignee := assignee, labels := labels,
           milestones := milestones, num_comments := num_comments }

/-- A raw Gogs issue payload (the fields `GogsIssue.__init__` reads). -/
structure GogsIssuePayload where
  number : Nat
  id : Nat
  title : String
  body : String
  state : String
  user : GogsUserPayload
  created_at : String
  updated_at : String
  assignee : Option GogsUserPayload
  labels : List (List (String × PyVal))
  milestone : Option (List (String × PyVal))
  comments : Nat

/-- The keyword value `assignee=GogsUser(issue['assignee']) if
issue['assignee'] else None` of the base-constructor call. -/
def GogsIssue.assigneeKwOf : Option GogsUserPayload → GogsIssueKw
  | some u => .user (GogsUser.init u)
  | none => .pynone

/-- The keyword value `milestone=GogsMilestone(issue['milestone']) if
issue['milestone'] else None` of the base-constructor call (constructing
the milestone can itself raise). -/
def GogsIssue.milestoneKwOf (m : Option (List (String × PyVal))) (now : String) :
    Except PyErr GogsIssueKw :=
  match m with
  | some md => do
    let ms ← GogsMilestone.init (some md) now
    pure (GogsIssueKw.milestone ms)
  | none => pure GogsIssueKw.pynone

/-- `GogsIssue.__init__`: builds the positional arguments and the keyword
dictionary for the base constructor.  Note the backend milestone is passed
under the keyword **`milestone`** (`milestone=GogsMilestone(...) if
issue['milestone'] else None`), while the base constructor pops
`milestones`. -/
def GogsIssue.init (issue : GogsIssuePayload) (now : String) :
    Except PyErr GogsIssueObj := do
  let state ← GogsIssueState.init issue.state
  let author := GogsUser.init issue.user
  let labels ← issue.labels.mapM (fun l => GogsLabel.init (some l))
  let milestoneKw ← GogsIssue.milestoneKwOf issue.milestone now
  Issue.initGogs issue.number issue.id issue.title issue.body state author
    issue.created_at
    [("updated", .str issue.updated_at),
     ("assignee", GogsIssue.assigneeKwOf issue.assignee),
     ("labels", .labels labels),
     ("milestone", milestoneKw),
     ("num_comments", .num issue.comments)]

/-! ## Concrete fixtures used by witnesses and counterexamples -/

/-- An HTTP oracle answering every request with an empty-bodied 200. -/
def httpOkC : Request → Resp := fun _ => {}

/-- A concrete GitHub service instance. -/
def ghSvcC : GitHubService :=
  GitHubService.init ("https") ("github.com") ("octo/repo") ("token")

/-- A concrete GitLab service instance. -/
def glSvcC : GitLabService :=
  GitLabService.init ("https") ("gitlab.com") ("octo/repo")

/-- A concrete Gogs service instance. -/
def gogsSvcC : GogsService :=
  GogsService.init ("https") ("gogs.example.com") ("octo/repo") ("token")

/-- A concrete JIRA service instance. -/
def jiraSvcC : JIRAService :=
  JIRAService.init ("https://jira.example.com") ("PROJ")

/-- An oracle whose status-list endpoint reports two JIRA statuses. -/
def jiraHttpC : Request → Resp := fun _ => { names := ["To Do", "Done"] }

/-- The sentinel `GitHubLabel()` (name `none`, color `ffffff`, id `0`). -/
def githubLabelNone : GitHubLabel :=
  { name := "none", color := "ffffff", id := some (.num 0) }

/-- The sentinel label is exactly what `GitHubLabel.__init__` builds with no
payload. -/
theorem githubLabelNone_def : GitHubLabel.init none = .ok githubLabelNone := rfl

/-- The sentinel `GogsLabel()` (name `none`, color `ffffff`, id `0`). -/
def gogsLabelNone : GogsLabel :=
  { name := "none", color := "ffffff", id := .num 0 }

/-- The sentinel label is exactly what `GogsLabel.__init__` builds with no
payload. -/
theorem gogsLabelNone_def : GogsLabel.init none = .ok gogsLabelNone := rfl

/-! ## Claim theorems -/

/-- C1: for `edit()` with no recognized keyword fields, GitHub and Gogs
raise `aborted edit due to no changes` with an empty request trace, but
GitLab performs the PUT (with an empty payload) first and raises the same
error only afterwards — the validation failure does *not* precede the
outgoing request on GitLab. -/
theorem gitlab_edit_no_changes_sends_put :
    ∀ (url : String) (http : Request → Resp),
      GitHubIssue.edit url {} http =
        (.error (.gitIssue ("aborted edit due to no changes")), []) ∧
      GogsIssue.edit url {} http =
        (.error (.gitIssue ("aborted edit due to no changes")), []) ∧
      GitLabIssue.edit url {} http =
        (.error (.gitIssue ("aborted edit due to no changes")),
         [{ method := .put, url := url, jsonData := [] }]) := by
  intro url http
  exact ⟨rfl, rfl, rfl⟩

/-- C3: `GitLab.issues("all")` is rejected by the state guard (which only
admits `open` and `closed`) with no request made, although the bucket
dictionary right below it maps `all` to the `open`/`closed` buckets; Gogs,
by contrast, accepts `all` and issues one list request per bucket, `open`
first, then `closed`. -/
theorem gitlab_issues_all_rejected :
    (∀ (svc : GitLabService) (http : Request → Resp) (fuel : Nat),
      GitLab.issues svc "all" http fuel =
        (.err (.gitIssue ("invalid issue state: all")), [])) ∧
    Gogs.issues gogsSvcC "all" httpOkC 3 =
      (.ok (),
       [{ method := .get, url := gogsSvcC.reposUrl ++ "/issues",
          params := [("state", .val (.str ("open")))] },
        { method := .get, url := gogsSvcC.reposUrl ++ "/issues",
          params := [("state", .val (.str ("closed")))] }]) := by
  constructor
  · intro svc http fuel
    rfl
  · rfl

/-- C5: the sentinel milestone constructions with no backing payload —
GitHub and Gogs yield `title = 'none'`, `state = 'closed'` and the
serialized construction-time clock reading as `due`, but GitLab dies with
`KeyError: 'iid'` because its default dictionary lacks the `iid` entry that
`__init__` reads unconditionally. -/
theorem gitlab_default_milestone_keyerror :
    ∀ (now : String),
      GitHubMilestone.init none now =
        .ok { base := { title := "none", description := "", due := .str now,
                        state := .str ("closed") },
              number := .num 0, id := .num 0 } ∧
      GogsMilestone.init none now =
        .ok { base := { title := "none", description := "", due := .str now,
                        state := .str ("closed") },
              id := .num 0 } ∧
      GitLabMilestone.init none now = .error (.keyError ("iid")) := by
  intro now
  exact ⟨rfl, rfl, rfl⟩

/-- C8 counterexample: the resolver does not know the name `JIRA` — it
raises `invalid issue service: JIRA` instead of returning a JIRA adapter,
and the message does not name the allowed set. -/
theorem get_service_jira_unregistered :
    get_service (some ("JIRA")) =
      .error (.gitIssue ("invalid issue service: JIRA")) := rfl

/-- C8 (amended): the allowed set is exactly `GitHub`, `GitLab`, `Gogs`;
each maps to its adapter; an unset name yields the `issue service not set`
configuration error, and any other name yields
`invalid issue service: <name>` (echoing the bad name, not enumerating the
allowed set). -/
theorem get_service_amended :
    get_service (some ("GitHub")) = .ok .gitHub ∧
    get_service (some ("GitLab")) = .ok .gitLab ∧
    get_service (some ("Gogs")) = .ok .gogs ∧
    get_service none =
      .error (.gitIssue ("issue service not set, specify using:\ngit config issue.service <service>")) ∧
    (∀ (name : String), name ≠ "GitHub" → name ≠ "GitLab" → name ≠ "Gogs" →
      get_service (some name) =
        .error (.gitIssue ("invalid issue service: " ++ name))) := by
  refine ⟨rfl, rfl, rfl, rfl, ?_⟩
  intro name h1 h2 h3
  simp [get_service, h1, h2, h3]

/-- C8 witness: the amended theorem applied at the concrete unrecognized
name `Bitbucket`. -/
theorem get_service_amended_witness :
    get_service (some ("Bitbucket")) =
      .error (.gitIssue ("invalid issue service: Bitbucket")) :=
  get_service_amended.2.2.2.2 ("Bitbucket") (by decide) (by decide) (by decide)

/-- C2 counterexample: for JIRA, `issues("bogus-state")` first fetches the
backend status list — an HTTP GET — and only then raises the invalid-state
error, so a network call precedes the validation failure. -/
theorem jira_issues_invalid_state_after_fetch :
    JIRA.issues jiraSvcC "bogus-state" jiraHttpC 5 =
      (.err (.gitIssue
        ("state must be one of \"open\", \"closed\", \"all\", \"To Do\", \"Done\"")),
       [JIRA.statusRequest jiraSvcC]) ∧
    [JIRA.statusRequest jiraSvcC] ≠ ([] : List Request) := by
  exact ⟨rfl, by decide⟩

/-- C2 (amended): GitHub, GitLab and Gogs reject an unrecognized state with
an empty request trace (no network call); JIRA first issues exactly one
auxiliary GET of its status list and raises the invalid-state error with
that single request — and no search request — in its trace. -/
theorem issues_invalid_state_validation :
    (∀ (svc : GitHubService) (state : String) (http : Request → Resp) (fuel : Nat),
      (GitHub.statesNames.contains state) = false →
        GitHub.issues svc state http fuel =
          (.err (.gitIssue ("state must be one of " ++
            String.intercalate (", ")
              (GitHub.statesNames.map (fun s => "\"" ++ s ++ "\"")))), [])) ∧
    (∀ (svc : GitLabService) (state : String) (http : Request → Resp) (fuel : Nat),
      (["open", "closed"].contains state) = false →
        GitLab.issues svc state http fuel =
          (.err (.gitIssue ("invalid issue state: " ++ state)), [])) ∧
    (∀ (svc : GogsService) (state : String) (http : Request → Resp) (fuel : Nat),
      (["open", "closed", "all"].contains state) = false →
        Gogs.issues svc state http fuel =
          (.err (.valueError
            ("state must be a string and one of \"open\", \"closed\", or \"all\"")), [])) ∧
    (∀ (svc : JIRAService) (state : String) (http : Request → Resp) (fuel : Nat),
      (http (JIRA.statusRequest svc)).status = 200 →
      ((["open", "closed", "all"] ++ (http (JIRA.statusRequest svc)).names).contains state)
          = false →
        JIRA.issues svc state http fuel =
          (.err (.gitIssue ("state must be one of " ++
            String.intercalate (", ")
              ((["open", "closed", "all"] ++ (http (JIRA.statusRequest svc)).names).map
                (fun s => "\"" ++ s ++ "\"")))),
           [JIRA.statusRequest svc])) := by
  refine ⟨?_, ?_, ?_, ?_⟩
  · intro svc state http fuel h
    unfold GitHub.issues
    rw [h]
    rfl
  · intro svc state http fuel h
    unfold GitLab.issues
    rw [h]
    rfl
  · intro svc state http fuel h
    unfold Gogs.issues
    rw [h]
    rfl
  · intro svc state http fuel hs h
    have hstates : JIRA.states svc http =
        (.ok (http (JIRA.statusRequest svc)).names, [JIRA.statusRequest svc]) := by
      unfold JIRA.states
      rw [hs]
      rfl
    unfold JIRA.issues
    simp only [hstates]
    rw [h]
    rfl

/-- C2 witness: the amended theorem applied at the concrete state
`bogus-state` for each adapter. -/
theorem issues_invalid_state_validation_witness :
    GitHub.issues ghSvcC "bogus-state" httpOkC 3 =
      (.err (.gitIssue ("state must be one of " ++
        String.intercalate (", ")
          (GitHub.statesNames.map (fun s => "\"" ++ s ++ "\"")))), []) ∧
    GitLab.issues glSvcC "bogus-state" httpOkC 3 =
      (.err (.gitIssue ("invalid issue state: bogus-state")), []) ∧
    Gogs.issues gogsSvcC "bogus-state" httpOkC 3 =
      (.err (.valueError
        ("state must be a string and one of \"open\", \"closed\", or \"all\"")), []) ∧
    JIRA.issues jiraSvcC "bogus-state" jiraHttpC 3 =
      (.err (.gitIssue ("state must be one of " ++
        String.intercalate (", ")
          ((["open", "closed", "all"] ++ (jiraHttpC (JIRA.statusRequest jiraSvcC)).names).map
            (fun s => "\"" ++ s ++ "\"")))),
       [JIRA.statusRequest jiraSvcC]) := by
  refine ⟨?_, ?_, ?_, ?_⟩
  · exact issues_invalid_state_validation.1 ghSvcC ("bogus-state") httpOkC 3 (by decide)
  · exact issues_invalid_state_validation.2.1 glSvcC ("bogus-state") httpOkC 3 (by decide)
  · exact issues_invalid_state_validation.2.2.1 gogsSvcC ("bogus-state") httpOkC 3 (by decide)
  · exact issues_invalid_state_validation.2.2.2 jiraSvcC ("bogus-state") jiraHttpC 3 (by decide) (by decide)

/-- Decidable equality for `Except` outcomes, used to evaluate embedded
results on concrete inputs. -/
instance {ε : Type} {α : Type} [DecidableEq ε] [DecidableEq α] :
    DecidableEq (Except ε α) := fun a b =>
  match a, b with
  | .ok x, .ok y =>
    if h : x = y then isTrue (by rw [h])
    else isFalse (by intro hc; cases hc; exact h rfl)
  | .error e, .error f =>
    if h : e = f then isTrue (by rw [h])
    else isFalse (by intro hc; cases hc; exact h rfl)
  | .ok _, .error _ => isFalse (by intro hc; cases hc)
  | .error _, .ok _ => isFalse (by intro hc; cases hc)

/-- A concrete Gogs user payload for comment fixtures. -/
def gogsUserC : GogsUserPayload := { id := 1, username := "dev" }

/-- Empty-body Gogs activity entry, oldest. -/
def gogsCommentC1 : GogsComment :=
  { body := "", created_at := "2018-01-01T10:00:00Z", id := 11, user := gogsUserC }

/-- Empty-body Gogs activity entry, middle. -/
def gogsCommentC2 : GogsComment :=
  { body := "", created_at := "2018-01-02T10:00:00Z", id := 12, user := gogsUserC }

/-- Empty-body Gogs activity entry, most recent. -/
def gogsCommentC3 : GogsComment :=
  { body := "", created_at := "2018-01-03T10:00:00Z", id := 13, user := gogsUserC }

/-- The `GogsIssueState` object for an open issue. -/
def gogsStateOpen : GogsIssueState := { name := "open", color := "green" }

/-- `gogsStateOpen` is exactly what `GogsIssueState('open')` constructs. -/
theorem gogsStateOpen_def : GogsIssueState.init ("open") = .ok gogsStateOpen := rfl

/-- C4: on an issue whose current state is `open` with three empty-body
activity entries, `GogsIssue.events` raises `KeyError` at the very first
entry — the action dictionary is keyed by the strings `'open'`/`'closed'`
but indexed with the issue's `GogsIssueState` *object* (`state =
self.state`), which never equals either key.  Had the walk started from the
state's *name*, it would have produced exactly the claimed actions
`reopened`, `closed`, `reopened` in most-recent-first order. -/
theorem gogs_events_state_object_keyerror :
    GogsIssue.events gogsStateOpen [gogsCommentC1, gogsCommentC2, gogsCommentC3] =
      .error (.keyError ("<GogsIssueState open>")) ∧
    GogsIssue.eventsFromName ("open") [gogsCommentC1, gogsCommentC2, gogsCommentC3] =
      .ok [("reopened", gogsCommentC3), ("closed", gogsCommentC2),
           ("reopened", gogsCommentC1)] := by
  exact ⟨by decide, by decide⟩

/-- Does a request payload value mention the literal string `none`? -/
def mentionsNone : DataVal → Bool
  | .val (.str s) => decide (s = "none")
  | .val _ => false
  | .listOf xs => xs.contains (.str ("none"))

/-- Does any entry of a request's payload or query mention the literal
string `none`? -/
def requestMentionsNoneLabel (r : Request) : Bool :=
  (r.jsonData ++ r.params).any (fun p => mentionsNone p.2)

/-- An oracle answering Gogs's label-delete with 204 and everything else
with 201 (the status `GogsIssue.edit` expects from its final PATCH). -/
def gogsHttpC6 : Request → Resp :=
  fun r => if r.method = .delete then { status := 204 } else { status := 201 }

/-- C6: `edit(labels=[<sentinel>])` clears the labels on every adapter —
GitHub PATCHes `labels: []`, GitLab PUTs `labels: ''`, Gogs DELETEs the
issue's labels and PATCHes the remaining (empty) payload — and none of the
emitted requests carries a label literally named `none`. -/
theorem edit_labels_none_sentinel_clears :
    ∀ (url : String) (http : Request → Resp),
      (GitHubIssue.edit url { labels := [githubLabelNone] } http).2 =
        [{ method := .patch, url := url, jsonData := [("labels", .listOf [])] }] ∧
      (GitLabIssue.edit url { labels := [GitLabLabel.default] } http).2 =
        [{ method := .put, url := url, jsonData := [("labels", .val (.str ("")))] }] ∧
      GogsIssue.edit url { labels := [gogsLabelNone] } gogsHttpC6 =
        (.ok (),
         [{ method := .delete, url := url ++ "/labels" },
          { method := .patch, url := url, jsonData := [] }]) ∧
      requestMentionsNoneLabel
        { method := .patch, url := url, jsonData := [("labels", .listOf [])] } = false ∧
      requestMentionsNoneLabel
        { method := .put, url := url, jsonData := [("labels", .val (.str ("")))] } = false ∧
      requestMentionsNoneLabel { method := .delete, url := url ++ "/labels" } = false ∧
      requestMentionsNoneLabel { method := .patch, url := url, jsonData := [] } = false := by
  intro url http
  refine ⟨?_, ?_, rfl, rfl, rfl, rfl, rfl⟩
  · by_cases hc :
      (http { method := .patch, url := url, jsonData := [("labels", .listOf [])] }).status = 200
    · simp [GitHubIssue.edit, githubLabelNone, hc]
    · simp [GitHubIssue.edit, githubLabelNone, hc]
  · by_cases hc :
      (http { method := .put, url := url, jsonData := [("labels", .val (.str ("")))] }).status = 200
    · simp [GitLabIssue.edit, GitLabLabel.default, hc]
    · simp [GitLabIssue.edit, GitLabLabel.default, hc]

/-- C7 counterexample: a successful GitHub user search with zero matching
users returns the empty collection (`.ok []`) — no not-found error is
raised. -/
theorem github_user_search_empty_ok :
    GitHub.user_search ghSvcC "alice" httpOkC [] =
      (.ok [],
       [{ method := .get, url := ghSvcC.apiUrl ++ "/search/users",
          params := [("q", .val (.str ("alice")))] }], []) := rfl

/-- C7 (amended): on a successful response with zero matches, GitLab and
Gogs raise the `unable to find user: <keyword>` error, while GitHub simply
returns the empty list. -/
theorem user_search_zero_matches :
    (∀ (svc : GitLabService) (kw : String) (http : Request → Resp),
      (http { method := .get, url := svc.usersUrl,
              params := [("search", .val (.str kw))] }).status = 200 →
      (http { method := .get, url := svc.usersUrl,
              params := [("search", .val (.str kw))] }).glUsers = [] →
        GitLab.user_search svc kw http =
          (.error (.gitIssue ("unable to find user: " ++ kw)),
           [{ method := .get, url := svc.usersUrl,
              params := [("search", .val (.str kw))] }])) ∧
    (∀ (svc : GogsService) (kw : String) (http : Request → Resp),
      (http { method := .get, url := svc.apiUrl ++ "/users/search",
              params := [("q", .val (.str kw))] }).status = 200 →
      (http { method := .get, url := svc.apiUrl ++ "/users/search",
              params := [("q", .val (.str kw))] }).gogsUsers = [] →
        Gogs.user_search svc kw http =
          (.error (.gitIssue ("unable to find user: " ++ kw)),
           [{ method := .get, url := svc.apiUrl ++ "/users/search",
              params := [("q", .val (.str kw))] }])) ∧
    (∀ (svc : GitHubService) (kw : String) (http : Request → Resp) (cache : GHUserCache),
      (http { method := .get, url := svc.apiUrl ++ "/search/users",
              params := [("q", .val (.str kw))] }).status = 200 →
      (http { method := .get, url := svc.apiUrl ++ "/search/users",
              params := [("q", .val (.str kw))] }).ghUsers = [] →
        GitHub.user_search svc kw http cache =
          (.ok [],
           [{ method := .get, url := svc.apiUrl ++ "/search/users",
              params := [("q", .val (.str kw))] }], cache)) := by
  refine ⟨?_, ?_, ?_⟩
  · intro svc kw http h1 h2
    simp [GitLab.user_search, h1, h2]
  · intro svc kw http h1 h2
    simp [Gogs.user_search, h1, h2]
  · intro svc kw http cache h1 h2
    simp [GitHub.user_search, h1, h2]

/-- C7 witness: the amended theorem applied to a concrete zero-match
response for each adapter. -/
theorem user_search_zero_matches_witness :
    GitLab.user_search glSvcC "ghost" httpOkC =
      (.error (.gitIssue ("unable to find user: ghost")),
       [{ method := .get, url := glSvcC.usersUrl,
          params := [("search", .val (.str ("ghost")))] }]) ∧
    Gogs.user_search gogsSvcC "ghost" httpOkC =
      (.error (.gitIssue ("unable to find user: ghost")),
       [{ method := .get, url := gogsSvcC.apiUrl ++ "/users/search",
          params := [("q", .val (.str ("ghost")))] }]) ∧
    GitHub.user_search ghSvcC "ghost" httpOkC [] =
      (.ok [],
       [{ method := .get, url := ghSvcC.apiUrl ++ "/search/users",
          params := [("q", .val (.str ("ghost")))] }], []) := by
  refine ⟨?_, ?_, ?_⟩
  · exact user_search_zero_matches.1 glSvcC ("ghost") httpOkC rfl rfl
  · exact user_search_zero_matches.2.1 gogsSvcC ("ghost") httpOkC rfl rfl
  · exact user_search_zero_matches.2.2 ghSvcC ("ghost") httpOkC [] rfl rfl

/-- A GitHub service instance "A" (distinct configuration from `ghSvcB`). -/
def ghSvcA : GitHubService :=
  GitHubService.init ("https") ("github.com") ("octo/repo") ("token-a")

/-- A GitHub service instance "B", distinct from `ghSvcA`. -/
def ghSvcB : GitHubService :=
  GitHubService.init ("https") ("github.com") ("octo/repo") ("token-b")

/-- A user payload whose detail URL the cache scenario fetches. -/
def ghUserP : GHUserPayload :=
  { id := 7, login := "alice", url := "https://api.github.com/users/alice" }

/-- An oracle serving the user-detail body with a 200. -/
def ghDetailHttp : Request → Resp :=
  fun _ => { ghDetail := { email := some ("alice@example.com"), name := some ("Alice") } }

/-- C9 counterexample: two *distinct* GitHub service instances; a user
constructed during instance A's run populates the module-level cache, and
the same construction performed via instance B issues **no** detail
request and observes the entry instance A cached. -/
theorem github_user_cache_shared_across_instances :
    ghSvcA ≠ ghSvcB ∧
    (GitHubUser.initVia ghSvcA ghUserP ghDetailHttp []).trace =
      [{ method := .get, url := "https://api.github.com/users/alice" }] ∧
    (GitHubUser.initVia ghSvcB ghUserP ghDetailHttp
        (GitHubUser.initVia ghSvcA ghUserP ghDetailHttp []).cache).trace = [] ∧
    (GitHubUser.initVia ghSvcB ghUserP ghDetailHttp
        (GitHubUser.initVia ghSvcA ghUserP ghDetailHttp []).cache).user.email =
      some ("alice@example.com") := by
  refine ⟨by decide, rfl, rfl, rfl⟩

/-- C9 (amended): the memoization caches are module-level, not
instance-scoped.  `GitHubUser` construction is entirely independent of
which `GitHub` service instance is current; once any instance's activity
has populated the cache for a user id (here: after one construction whose
detail fetch succeeded), a construction via *any other* instance issues no
request; and the `GitLabLabel` cache lookup is likewise independent of the
`GitLab` instance. -/
theorem caches_module_scoped :
    (∀ (svc svc' : GitHubService) (u : GHUserPayload) (http : Request → Resp)
        (cache : GHUserCache),
      GitHubUser.initVia svc u http cache = GitHubUser.initVia svc' u http cache) ∧
    (∀ (svc svc' : GitHubService) (u : GHUserPayload) (http : Request → Resp)
        (cache : GHUserCache),
      (http { method := .get, url := u.url }).status = 200 →
        (GitHubUser.initVia svc' u http
            (GitHubUser.initVia svc u http cache).cache).trace = []) ∧
    (∀ (svc svc' : GitLabService) (label : String)
        (cacheLabels : Option (List GitLabLabel)),
      GitLabLabel.ofStringVia svc label cacheLabels =
        GitLabLabel.ofStringVia svc' label cacheLabels) := by
  refine ⟨fun _ _ _ _ _ => rfl, ?_, fun _ _ _ _ => rfl⟩
  intro svc svc' u http cache h200
  unfold GitHubUser.initVia GitHubUser.init
  cases hf : cache.find? (fun p => p.1 = u.id) with
  | some x =>
    simp only [hf]
  | none =>
    simp only [hf]
    simp only [h200]
    have hmem : ((cache ++ [(u.id, (http { method := .get, url := u.url }).ghDetail)]).find?
        (fun p => decide (p.1 = u.id))).isSome = true := by
      rw [List.find?_isSome]
      exact ⟨(u.id, (http { method := .get, url := u.url }).ghDetail),
             by simp, by simp⟩
    cases hf2 : (cache ++ [(u.id, (http { method := .get, url := u.url }).ghDetail)]).find?
        (fun p => decide (p.1 = u.id)) with
    | some y => simp [hf2]
    | none => rw [hf2] at hmem; simp at hmem

/-- C9 witness: the amended theorem's cache-hit clause applied to the
concrete two-instance scenario. -/
theorem caches_module_scoped_witness :
    (GitHubUser.initVia ghSvcB ghUserP ghDetailHttp
        (GitHubUser.initVia ghSvcA ghUserP ghDetailHttp []).cache).trace = [] :=
  caches_module_scoped.2.1 ghSvcA ghSvcB ghUserP ghDetailHttp [] rfl

/-- `pure`/`bind` reduction for `Except` (used to peel embedded `do`
chains). -/
theorem except_pure_bind {ε α β : Type} (a : α) (f : α → Except ε β) :
    (pure a : Except ε α) >>= f = f a := rfl

/-- `ok`/`bind` reduction for `Except`. -/
theorem except_bind_ok {ε α β : Type} (a : α) (f : α → Except ε β) :
    (Except.ok a : Except ε α) >>= f = f a := rfl

/-- `error`/`bind` reduction for `Except`. -/
theorem except_bind_error {ε α β : Type} (e : ε) (f : α → Except ε β) :
    (Except.error e : Except ε α) >>= f = Except.error e := rfl

/-- Helper: whenever the base constructor is fed the Gogs-shaped keyword
dictionary — whose milestone entry travels under the key `milestone` — the
stored `milestones` attribute is `None`, because the base constructor pops
the key `milestones`, which is absent. -/
theorem initGogs_kwargs_milestones (number numberId : Nat) (title body : String)
    (state : GogsIssueState) (author : GogsUser) (created : String)
    (v1 : String) (v2 v4 : GogsIssueKw) (v3 : List GogsLabel) (v5 : Nat)
    (i : GogsIssueObj)
    (h : Issue.initGogs number numberId title body state author created
      [("updated", .str v1), ("assignee", v2), ("labels", .labels v3),
       ("milestone", v4), ("num_comments", .num v5)] = .ok i) :
    i.milestones = none := by
  cases v2 with
  | user u =>
    have e : Issue.initGogs number numberId title body state author created
        [("updated", .str v1), ("assignee", .user u), ("labels", .labels v3),
         ("milestone", v4), ("num_comments", .num v5)] =
        .ok { number := number, numberId := numberId, title := title, body := body,
              state := state, author := author, created := created,
              updated := some v1, assignee := some u, labels := v3,
              milestones := none, num_comments := v5 } := rfl
    rw [e] at h
    injection h with h2
    subst h2
    rfl
  | pynone =>
    have e : Issue.initGogs number numberId title body state author created
        [("updated", .str v1), ("assignee", .pynone), ("labels", .labels v3),
         ("milestone", v4), ("num_comments", .num v5)] =
        .ok { number := number, numberId := numberId, title := title, body := body,
              state := state, author := author, created := created,
              updated := some v1, assignee := none, labels := v3,
              milestones := none, num_comments := v5 } := rfl
    rw [e] at h
    injection h with h2
    subst h2
    rfl
  | str s => exact Except.noConfusion h
  | labels ls => exact Except.noConfusion h
  | milestone m => exact Except.noConfusion h
  | milestones ms => exact Except.noConfusion h
  | num n => exact Except.noConfusion h

/-- C10: every successfully constructed `GogsIssue` has `milestones =
None`, whatever the payload's `milestone` field held — the Gogs constructor
forwards it under the keyword `milestone`, the base constructor reads only
`milestones`, so the value is silently discarded. -/
theorem gogs_issue_milestone_discarded (p : GogsIssuePayload) (now : String)
    (i : GogsIssueObj) (h : GogsIssue.init p now = .ok i) : i.milestones = none := by
  unfold GogsIssue.init at h
  cases hs : GogsIssueState.init p.state with
  | error e =>
    rw [hs] at h
    simp only [except_bind_error] at h
    exact Except.noConfusion h
  | ok st =>
    rw [hs] at h
    simp only [except_bind_ok] at h
    cases hl : p.labels.mapM (fun l => GogsLabel.init (some l)) with
    | error e =>
      rw [hl] at h
      simp only [except_bind_error] at h
      exact Except.noConfusion h
    | ok ls =>
      rw [hl] at h
      simp only [except_bind_ok] at h
      cases hk : GogsIssue.milestoneKwOf p.milestone now with
      | error e =>
        rw [hk] at h
        simp only [except_bind_error] at h
        exact Except.noConfusion h
      | ok mk =>
        rw [hk] at h
        simp only [except_bind_ok] at h
        exact initGogs_kwargs_milestones _ _ _ _ _ _ _ _ _ _ _ _ i h

/-- A concrete Gogs issue payload whose `milestone` field is non-null. -/
def gogsPayloadC : GogsIssuePayload :=
  { number := 1, id := 10, title := "t", body := "b", state := "open",
    user := gogsUserC, created_at := "2020-01-01T00:00:00Z",
    updated_at := "2020-01-02T00:00:00Z", assignee := none, labels := [],
    milestone := some [("title", .str ("v1")), ("description", .str ("d")),
                       ("due_on", .str ("2020-02-01")), ("state", .str ("open")),
                       ("id", .num 5)],
    comments := 2 }

/-- The issue `GogsIssue.__init__` constructs from `gogsPayloadC`: despite
the non-null payload milestone, `milestones` is `None`. -/
def gogsIssueObjC : GogsIssueObj :=
  { number := 1, numberId := 10, title := "t", body := "b",
    state := gogsStateOpen, author := GogsUser.init gogsUserC,
    created := "2020-01-01T00:00:00Z", updated := some ("2020-01-02T00:00:00Z"),
    assignee := none, labels := [], milestones := none, num_comments := 2 }

/-- C10 witness: the theorem applied to the concrete payload with a
non-null milestone; the construction succeeds and discards it. -/
theorem gogs_issue_milestone_discarded_witness :
    gogsIssueObjC.milestones = none :=
  gogs_issue_milestone_discarded gogsPayloadC ("2020-03-01T00:00:00Z") gogsIssueObjC rfl
